import Mathlib

/-!
Shallow embedding of the AI_CONNECTOR task-tracking service
(`app/models.py`, `app/schemas.py`, `app/crud.py`, `app/routes.py`,
`app/dependencies.py`, `app/ai_connector.py`).

The relational store is modelled as explicit lists of rows; the SQLAlchemy
session/commit machinery is modelled by returning the updated store. Time is
an abstract tick (`Nat`): `func.now()` becomes an explicit `now` argument.
Client-supplied integers are `Int`; the Pydantic distinction between a field
absent from the request body and a field explicitly set to `null`
(`model_dump(exclude_unset=True)`) is modelled by `Option (Option _)`.
-/

namespace App

/-- Row of the `users` table (`app/models.py`, class `User`). -/
structure UserRow where
  id : Int
  username : String
  email : String
deriving DecidableEq, Repr

/-- Row of the `tasks` table (`app/models.py`, class `Task`). Columns
`description`, `status`, `assignee_id` are nullable; `title` is `Option`
only because the ORM `setattr` path in `update_task` can place `None` on the
in-memory object — the column itself is `nullable=False`, and the
commit-time check in `update_task` rejects persisting a null title, so
every store state reachable through the operations keeps `title` non-null.
`created_at` has a server default (always populated); `updated_at` has only
`onupdate=func.now()`, hence `Option Nat`. -/
structure TaskRow where
  id : Int
  title : Option String
  description : Option String
  status : Option String
  created_at : Nat
  updated_at : Option Nat
  assignee_id : Option Int
deriving DecidableEq, Repr

/-- Row of the `ai_suggestions` table (`app/models.py`, class `AISuggestion`). -/
structure AISuggestionRow where
  id : Int
  suggestion_text : String
  created_at : Nat
  task_id : Int
deriving DecidableEq, Repr

/-- The whole relational store, plus the id sequences of the two tables that
get rows inserted through the API. -/
structure Store where
  users : List UserRow
  tasks : List TaskRow
  suggestions : List AISuggestionRow
  nextTaskId : Int
  nextSuggId : Int
deriving DecidableEq, Repr

/-- Pydantic `TaskCreate` (`app/schemas.py`): `title` required,
`description` defaults to `None`, `status` defaults to `"pending"` (so it is
`none` only when the client explicitly sends `null`), `assignee_id` defaults
to `None`. -/
structure TaskCreate where
  title : String
  description : Option String := none
  status : Option String := some "pending"
  assignee_id : Option Int := none
deriving DecidableEq, Repr

/-- Pydantic `TaskUpdate` (`app/schemas.py`): every field optional. The outer
`Option` is field presence (`exclude_unset`): `none` = absent from the
request, `some v` = explicitly present with value `v` (where `v = none` is an
explicit JSON `null`). -/
structure TaskUpdate where
  title : Option (Option String) := none
  description : Option (Option String) := none
  status : Option (Option String) := none
  assignee_id : Option (Option Int) := none
deriving DecidableEq, Repr

/-- `crud.get_user`: first user row with the given id. -/
def get_user (s : Store) (user_id : Int) : Option UserRow :=
  s.users.find? (fun u => u.id == user_id)

/-- `crud.get_task`: first task row with the given id. -/
def get_task (s : Store) (task_id : Int) : Option TaskRow :=
  s.tasks.find? (fun t => t.id == task_id)

/-- `crud.get_tasks`: `db.query(Task).offset(skip).limit(limit).all()`; rows
come back in insertion order (the store list order). -/
def get_tasks (s : Store) (skip : Nat) (limit : Nat) : List TaskRow :=
  (s.tasks.drop skip).take limit

/-- Python `x or dflt` on an optional string: `None` and `""` are falsy. -/
def pyOr (v : Option String) (dflt : String) : String :=
  match v with
  | none => dflt
  | some s => if s = "" then dflt else s

/-- `crud.create_task`: builds the row (`status=task.status or "pending"`),
inserts and commits; `db.refresh` fills the generated id and `created_at`
(server default `func.now()`); `updated_at` has no default, so it is NULL. -/
def create_task (now : Nat) (s : Store) (task : TaskCreate) : TaskRow × Store :=
  let db_task : TaskRow :=
    { id := s.nextTaskId
      title := some task.title
      description := task.description
      status := some (pyOr task.status "pending")
      created_at := now
      updated_at := none
      assignee_id := task.assignee_id }
  (db_task, { s with tasks := s.tasks ++ [db_task], nextTaskId := s.nextTaskId + 1 })

/-- The `for key, value in update_data.items(): setattr(db_task, key, value)`
loop of `crud.update_task`, where `update_data` is
`task_update.model_dump(exclude_unset=True)`: a field absent from the request
(outer `none`) is not in `update_data` and leaves the column alone; a field
explicitly present (outer `some v`) is written as-is, including `v = none`
(an explicit JSON `null`). -/
def applyUpdate (t : TaskRow) (u : TaskUpdate) : TaskRow :=
  { t with
    title := u.title.getD t.title
    description := u.description.getD t.description
    status := u.status.getD t.status
    assignee_id := u.assignee_id.getD t.assignee_id }

/-- Row written back by `crud.update_task` after the `setattr` loop and the
commit. The `updated_at` column has `onupdate=func.now()`
(`app/models.py`): SQLAlchemy applies an `onupdate` only when the flush emits
an UPDATE statement for the row, and the flush emits one only when some
attribute has a net change (setting an attribute to a value equal to the old
one yields empty history, and an empty `update_data` sets nothing at all).
Hence `updated_at` is refreshed exactly when `applyUpdate` changed the row. -/
def refreshRow (now : Nat) (db_task : TaskRow) (task_update : TaskUpdate) : TaskRow :=
  let t1 := applyUpdate db_task task_update
  if t1 = db_task then t1 else { t1 with updated_at := some now }

/-- Exception raised by the database driver at `db.commit()` when a
constraint is violated; the route lets it propagate, FastAPI surfaces it as
a generic 500 server error, and the failed transaction is rolled back when
the request-scoped session closes, so nothing is stored. -/
inductive DbError where
  | integrityError : DbError
deriving DecidableEq, Repr

/-- `crud.update_task`: `ok none` when the task is absent (the Python
`None`); otherwise the `setattr` loop runs and `db.commit()` flushes the net
changes. The `tasks.title` column is `nullable=False` (`app/models.py`), so
when the flushed UPDATE sets `title` to NULL — i.e. the applied fields give
the row a null title while the stored title was non-null — the commit
raises `IntegrityError` and the store is unchanged. Otherwise the refreshed
row (`refreshRow`) is written back and returned with the new store. The
other writable columns (`description`, `status`, `assignee_id`) are
nullable, so only `title` can violate NOT NULL here. -/
def update_task (now : Nat) (s : Store) (task_id : Int) (task_update : TaskUpdate) :
    Except DbError (Option (TaskRow × Store)) :=
  match get_task s task_id with
  | none => Except.ok none
  | some db_task =>
    if (applyUpdate db_task task_update).title = none ∧ db_task.title ≠ none then
      Except.error DbError.integrityError
    else
      let t2 := refreshRow now db_task task_update
      Except.ok
        (some (t2, { s with tasks := s.tasks.map (fun r => if r.id == task_id then t2 else r) }))

/-- `crud.delete_task`: `False` when the task is absent; otherwise
`db.delete(db_task)` with the `cascade="all, delete-orphan"` relationship
(`app/models.py`) also deletes every `AISuggestion` row of that task, and the
function returns `True`. -/
def delete_task (s : Store) (task_id : Int) : Bool × Store :=
  match get_task s task_id with
  | none => (false, s)
  | some _ =>
    (true,
      { s with
        tasks := s.tasks.filter (fun t => !(t.id == task_id))
        suggestions := s.suggestions.filter (fun r => !(r.task_id == task_id)) })

/-- `crud.create_ai_suggestion`: inserts a suggestion row for the task and
commits; `db.refresh` fills id and `created_at`. -/
def create_ai_suggestion (now : Nat) (s : Store) (suggestion_text : String)
    (task_id : Int) : AISuggestionRow × Store :=
  let row : AISuggestionRow :=
    { id := s.nextSuggId
      suggestion_text := suggestion_text
      created_at := now
      task_id := task_id }
  (row, { s with suggestions := s.suggestions ++ [row], nextSuggId := s.nextSuggId + 1 })

/-! The OpenAI connector (`app/ai_connector.py`). The file system and the
remote provider are the environment: a call-time snapshot of the credential
file is a `FileRead`, and the outcome the provider would produce if reached
is a `ProviderOutcome`. -/

/-- State of the credential file at `settings.openai_api_key_file` when
`get_openai_api_key` runs: the `os.path.exists` check fails, the
`open`/`read` raises, or the file is read with the given raw content. -/
inductive FileRead where
  | absent : FileRead
  | readError : FileRead
  | content : String → FileRead
deriving DecidableEq, Repr

/-- Python `str.strip()`: drop leading and trailing whitespace. -/
def pyStrip (s : String) : String := s.trim

/-- `ai_connector.get_openai_api_key`: `None` when the file is missing, the
read raises, or the stripped content is empty; otherwise the stripped key. -/
def get_openai_api_key : FileRead → Option String
  | FileRead.absent => none
  | FileRead.readError => none
  | FileRead.content c =>
    let api_key := pyStrip c
    if api_key = "" then none else some api_key

/-- Outcome of the `client.chat.completions.create` call when it is reached:
a successful response whose first choice has the given message content, an
`OpenAIError`, or any other exception. -/
inductive ProviderOutcome where
  | success : String → ProviderOutcome
  | apiError : ProviderOutcome
  | unexpectedError : ProviderOutcome
deriving DecidableEq, Repr

/-- Fallback returned by `generate_ai_suggestion` when no client could be
built (missing/unreadable/empty credential file). -/
def fallbackUnavailable : String := "Optimize this task for better efficiency. (AI unavailable)"

/-- Fallback returned by `generate_ai_suggestion` on `OpenAIError`. -/
def fallbackApiError : String := "Could not generate AI suggestion due to an API error."

/-- Fallback returned by `generate_ai_suggestion` on any other exception. -/
def fallbackUnexpected : String := "An unexpected error occurred while generating the suggestion."

/-- Prompt building in `generate_ai_suggestion`: the description line is
appended only when `task_description` is truthy (not `None`, not empty). -/
def buildPrompt (task_title : String) (task_description : Option String) : String :=
  let p := "Provide one short, actionable suggestion (less than 20 words) to improve or clarify the following task:\n"
  let p := p ++ "Title: " ++ task_title ++ "\n"
  let p :=
    match task_description with
    | some d => if d = "" then p else p ++ "Description: " ++ d ++ "\n"
    | none => p
  p ++ "Suggestion:"

/-- `ai_connector.generate_ai_suggestion`. When no client is available it
returns the stub fallback; otherwise it calls the provider inside
`try/except`, returning the stripped first-choice content on success, one
fixed fallback on `OpenAIError` and another on any other exception. Every
branch returns a string (the `str | None` annotation notwithstanding). -/
def generate_ai_suggestion (file : FileRead) (outcome : ProviderOutcome)
    (task_title : String) (task_description : Option String) : Option String :=
  match get_openai_api_key file with
  | none => some fallbackUnavailable
  | some _ =>
    let _prompt := buildPrompt task_title task_description
    match outcome with
    | ProviderOutcome.success content => some (pyStrip content)
    | ProviderOutcome.apiError => some fallbackApiError
    | ProviderOutcome.unexpectedError => some fallbackUnexpected

/-! The access gate (`app/dependencies.py`, `verify_token`). -/

/-- Helper of `pySplit`: walks the characters with an accumulator holding the
current (reversed) word. -/
def pySplitAux : List Char → List Char → List String
  | [], cur => if cur.isEmpty then [] else [String.mk cur.reverse]
  | c :: rest, cur =>
    if c.isWhitespace then
      if cur.isEmpty then pySplitAux rest []
      else String.mk cur.reverse :: pySplitAux rest []
    else pySplitAux rest (c :: cur)

/-- Python `str.split()` with no argument: split on runs of whitespace,
discarding empty pieces. -/
def pySplit (s : String) : List String := pySplitAux s.data []

/-- Python `str.lower()` as used on the scheme word (ASCII lowercasing
suffices for the `"bearer"` comparison). -/
def pyLower (s : String) : String := String.mk (s.data.map Char.toLower)

/-- Result of `verify_token`: the request proceeds, or one of the three
`HTTPException(401)` rejections. -/
inductive AuthResult where
  | pass : AuthResult
  | missingHeader : AuthResult
  | invalidScheme : AuthResult
  | invalidToken : AuthResult
deriving DecidableEq, Repr

/-- `dependencies.verify_token`: reject when the `Authorization` header is
absent; reject when `authorization.split()` is not exactly two words with the
first lowercasing to `"bearer"`; reject when the second word differs from
`settings.api_auth_token`; otherwise let the request proceed. -/
def verify_token (api_auth_token : String) (authorization : Option String) : AuthResult :=
  match authorization with
  | none => AuthResult.missingHeader
  | some a =>
    match pySplit a with
    | [scheme, token] =>
      if pyLower scheme = "bearer" then
        if token = api_auth_token then AuthResult.pass else AuthResult.invalidToken
      else AuthResult.invalidScheme
    | _ => AuthResult.invalidScheme

/-- HTTP status surfaced for each `AuthResult`: `none` means the request
proceeds to the route handler, `some c` means the gate answers with code `c`.
All three rejections raise `HTTP_401_UNAUTHORIZED`. -/
def authStatus : AuthResult → Option Nat
  | AuthResult.pass => none
  | AuthResult.missingHeader => some 401
  | AuthResult.invalidScheme => some 401
  | AuthResult.invalidToken => some 401

/-! The task routes (`app/routes.py`). Route bodies become functions from
the store (and, for the suggestion route, the connector environment) to an
`ApiResult` plus the resulting store. -/

/-- Outcome of a route handler: success payload, `HTTPException(404, d)`, or
`HTTPException(500, d)`. -/
inductive ApiResult (α : Type) where
  | ok : α → ApiResult α
  | notFound : String → ApiResult α
  | serverError : String → ApiResult α
deriving DecidableEq, Repr

/-- Python truthiness of the optional `assignee_id` in
`if task.assignee_id:` — `None` and `0` are both falsy. -/
def pyTruthy : Option Int → Bool
  | none => false
  | some n => n != 0

/-- `routes.create_new_task` (POST /tasks/): when `task.assignee_id` is
truthy, look the user up and answer 404 if absent; otherwise (including the
falsy values `None` and `0`) persist via `crud.create_task` and return the
created row with status 201. -/
def create_new_task (now : Nat) (s : Store) (task : TaskCreate) :
    ApiResult TaskRow × Store :=
  if pyTruthy task.assignee_id then
    match get_user s (task.assignee_id.getD 0) with
    | none => (ApiResult.notFound "Assignee user not found", s)
    | some _ =>
      let res := create_task now s task
      (ApiResult.ok res.1, res.2)
  else
    let res := create_task now s task
    (ApiResult.ok res.1, res.2)

/-- `routes.read_task` (GET /tasks/task_id): 404 when absent. -/
def read_task (s : Store) (task_id : Int) : ApiResult TaskRow :=
  match get_task s task_id with
  | none => ApiResult.notFound "Task not found"
  | some t => ApiResult.ok t

/-- Shared tail of `routes.update_existing_task`: run `crud.update_task`,
translate `None` into 404; an `IntegrityError` escaping `db.commit()` is
uncaught in the route and surfaces as a generic 500 with the store
unchanged (the session rolls back on close). -/
def runUpdate (now : Nat) (s : Store) (task_id : Int) (task_update : TaskUpdate) :
    ApiResult TaskRow × Store :=
  match update_task now s task_id task_update with
  | Except.error _ => (ApiResult.serverError "Internal Server Error", s)
  | Except.ok none => (ApiResult.notFound "Task not found", s)
  | Except.ok (some (t, s')) => (ApiResult.ok t, s')

/-- `routes.update_existing_task` (PUT /tasks/task_id): when
`task_update.assignee_id is not None` (i.e. the field carries an integer —
Pydantic gives `None` both for an absent field and an explicit `null`), look
the user up and answer 404 if absent; then delegate to `crud.update_task`. -/
def update_existing_task (now : Nat) (s : Store) (task_id : Int)
    (task_update : TaskUpdate) : ApiResult TaskRow × Store :=
  match task_update.assignee_id with
  | some (some uid) =>
    match get_user s uid with
    | none => (ApiResult.notFound "Assignee user not found", s)
    | some _ => runUpdate now s task_id task_update
  | _ => runUpdate now s task_id task_update

/-- `routes.delete_existing_task` (DELETE /tasks/task_id): 404 when
`crud.delete_task` signals failure, otherwise 204 with no body. -/
def delete_existing_task (s : Store) (task_id : Int) : ApiResult Unit × Store :=
  let res := delete_task s task_id
  if res.1 then (ApiResult.ok (), res.2) else (ApiResult.notFound "Task not found", res.2)

/-- `routes.create_task_suggestion` (POST /tasks/task_id/suggestions): 404
when the task is absent; otherwise call `generate_ai_suggestion` on the
task's title and description, answer 500 if it returned `None`, and
otherwise persist the text via `crud.create_ai_suggestion` and return the
new row with status 201. -/
def create_task_suggestion (now : Nat) (s : Store) (task_id : Int)
    (file : FileRead) (outcome : ProviderOutcome) :
    ApiResult AISuggestionRow × Store :=
  match get_task s task_id with
  | none => (ApiResult.notFound "Task not found", s)
  | some db_task =>
    match generate_ai_suggestion file outcome (db_task.title.getD "") db_task.description with
    | none => (ApiResult.serverError "Failed to generate AI suggestion", s)
    | some text =>
      let res := create_ai_suggestion now s text task_id
      (ApiResult.ok res.1, res.2)

/-- `routes.read_tasks` (GET /tasks/): plain pass-through to
`crud.get_tasks`. -/
def read_tasks (s : Store) (skip : Nat) (limit : Nat) : List TaskRow :=
  get_tasks s skip limit

/-- One entry of the task router: method, path, and the dependency list in
force for the handler (router-level dependencies included). -/
structure RouteDef where
  method : String
  path : String
  dependencies : List String
deriving DecidableEq, Repr

/-- Dependencies declared on the `APIRouter` itself in `app/routes.py`
(`dependencies=[Depends(verify_token)]`), inherited by every route of the
router. -/
def routerDependencies : List String := ["verify_token"]

/-- The six routes registered on the task router in `app/routes.py`, each
with its effective dependency list (the router-level list; no route adds or
removes any). -/
def taskRoutes : List RouteDef :=
  [ { method := "POST", path := "/tasks/", dependencies := routerDependencies }
  , { method := "GET", path := "/tasks/\x7btask_id\x7d", dependencies := routerDependencies }
  , { method := "PUT", path := "/tasks/\x7btask_id\x7d", dependencies := routerDependencies }
  , { method := "DELETE", path := "/tasks/\x7btask_id\x7d", dependencies := routerDependencies }
  , { method := "POST", path := "/tasks/\x7btask_id\x7d/suggestions", dependencies := routerDependencies }
  , { method := "GET", path := "/tasks/", dependencies := routerDependencies } ]

/-- Suggestion rows currently stored for a task. -/
def suggestionsFor (s : Store) (task_id : Int) : List AISuggestionRow :=
  s.suggestions.filter (fun r => r.task_id == task_id)

/-! General lemmas about row lists addressed by an integer key, giving the
frame conditions of the CRUD operations. -/

theorem find?_key_map_write {α : Type} (key : α → Int) (l : List α) (id : Int)
    (t2 : α) (h2 : key t2 = id) (j : Int) (hj : j ≠ id) :
    (l.map (fun r => if key r == id then t2 else r)).find? (fun r => key r == j)
      = l.find? (fun r => key r == j) := by
  induction l with
  | nil => rfl
  | cons r rest ih =>
    by_cases hr : key r = id
    · have hmap : (if key r == id then t2 else r) = t2 := by simp [hr]
      rw [List.map_cons, hmap,
        List.find?_cons_of_neg _ (by simp [h2]; exact fun h => (hj h.symm).elim),
        List.find?_cons_of_neg _ (by simp [hr]; exact fun h => (hj h.symm).elim)]
      exact ih
    · have hmap : (if key r == id then t2 else r) = r := by simp [hr]
      rw [List.map_cons, hmap]
      by_cases hrj : key r = j
      · rw [List.find?_cons_of_pos _ (by simpa using hrj),
          List.find?_cons_of_pos _ (by simpa using hrj)]
      · rw [List.find?_cons_of_neg _ (by simpa using hrj),
          List.find?_cons_of_neg _ (by simpa using hrj)]
        exact ih

theorem find?_key_map_write_self {α : Type} (key : α → Int) (l : List α) (id : Int)
    (t2 : α) (h2 : key t2 = id)
    (h : (l.find? (fun r => key r == id)).isSome = true) :
    (l.map (fun r => if key r == id then t2 else r)).find? (fun r => key r == id)
      = some t2 := by
  induction l with
  | nil => simp [List.find?] at h
  | cons r rest ih =>
    by_cases hr : key r = id
    · have hmap : (if key r == id then t2 else r) = t2 := by simp [hr]
      rw [List.map_cons, hmap, List.find?_cons_of_pos _ (by simpa using h2)]
    · have hmap : (if key r == id then t2 else r) = r := by simp [hr]
      rw [List.map_cons, hmap, List.find?_cons_of_neg _ (by simpa using hr)]
      rw [List.find?_cons_of_neg _ (by simpa using hr)] at h
      exact ih h

theorem find?_key_filter_ne {α : Type} (key : α → Int) (l : List α) (id j : Int)
    (hj : j ≠ id) :
    (l.filter (fun r => !(key r == id))).find? (fun r => key r == j)
      = l.find? (fun r => key r == j) := by
  induction l with
  | nil => rfl
  | cons r rest ih =>
    by_cases hr : key r = id
    · rw [List.filter_cons_of_neg (by simp [hr]),
        List.find?_cons_of_neg _ (by simp [hr]; exact fun h => (hj h.symm).elim)]
      exact ih
    · rw [List.filter_cons_of_pos (by simpa using hr)]
      by_cases hrj : key r = j
      · rw [List.find?_cons_of_pos _ (by simpa using hrj),
          List.find?_cons_of_pos _ (by simpa using hrj)]
      · rw [List.find?_cons_of_neg _ (by simpa using hrj),
          List.find?_cons_of_neg _ (by simpa using hrj)]
        exact ih

theorem find?_key_filter_self {α : Type} (key : α → Int) (l : List α) (id : Int) :
    (l.filter (fun r => !(key r == id))).find? (fun r => key r == id) = none := by
  rw [List.find?_eq_none]
  intro x hx
  have hmem := List.of_mem_filter hx
  simp only [Bool.not_eq_true', beq_eq_false_iff_ne, ne_eq] at hmem
  simpa using hmem

theorem find?_append_of_some {α : Type} {p : α → Bool} {l₁ : List α} {a : α}
    (l₂ : List α) (h : l₁.find? p = some a) : (l₁ ++ l₂).find? p = some a := by
  rw [List.find?_append, h]
  rfl

/-! Concrete rows and stores used to instantiate the theorems. -/

/-- The bootstrap user created by `app/main.py`. -/
def defaultUser : UserRow :=
  { id := 1, username := "default_user", email := "user@example.com" }

/-- A concrete stored task (as after one POST /tasks/). -/
def sampleTask : TaskRow :=
  { id := 1
    title := some "Write report"
    description := some "Quarterly report"
    status := some "pending"
    created_at := 0
    updated_at := none
    assignee_id := some 1 }

/-- A concrete suggestion row attached to `sampleTask`. -/
def sampleSuggestion : AISuggestionRow :=
  { id := 1, suggestion_text := "Add a deadline.", created_at := 0, task_id := 1 }

/-- A concrete store: the bootstrap user, one task, one suggestion. -/
def sampleStore : Store :=
  { users := [defaultUser]
    tasks := [sampleTask]
    suggestions := [sampleSuggestion]
    nextTaskId := 2
    nextSuggId := 2 }

/-- A store with no rows at all. -/
def emptyStore : Store :=
  { users := [], tasks := [], suggestions := [], nextTaskId := 1, nextSuggId := 1 }

/-- The partial update whose body is exactly the JSON object with the single
member `status` set to `"done"`. -/
def statusDoneUpdate : TaskUpdate := { status := some (some "done") }

/-- The partial update whose body is the empty JSON object: every field
absent. -/
def emptyUpdate : TaskUpdate := {}

/-- C1 (counterexample): the claim says `updateTask` updates the
updated-timestamp for every existing task and every partial-update payload.
On the payload that is the empty JSON object, `update_task` applies no field,
the flush emits no UPDATE statement, and `updated_at` stays NULL instead of
becoming the current tick (5). -/
theorem C1_counterexample :
    (get_task sampleStore 1).isSome = true ∧
    update_task 5 sampleStore 1 emptyUpdate = Except.ok (some (sampleTask, sampleStore)) ∧
    sampleTask.updated_at = none ∧
    sampleTask.updated_at ≠ some 5 := by
  refine ⟨rfl, rfl, rfl, by decide⟩

theorem refreshRow_title (now : Nat) (t : TaskRow) (u : TaskUpdate) :
    (refreshRow now t u).title = u.title.getD t.title := by
  simp only [refreshRow]
  split <;> rfl

theorem refreshRow_description (now : Nat) (t : TaskRow) (u : TaskUpdate) :
    (refreshRow now t u).description = u.description.getD t.description := by
  simp only [refreshRow]
  split <;> rfl

theorem refreshRow_status (now : Nat) (t : TaskRow) (u : TaskUpdate) :
    (refreshRow now t u).status = u.status.getD t.status := by
  simp only [refreshRow]
  split <;> rfl

theorem refreshRow_assignee_id (now : Nat) (t : TaskRow) (u : TaskUpdate) :
    (refreshRow now t u).assignee_id = u.assignee_id.getD t.assignee_id := by
  simp only [refreshRow]
  split <;> rfl

theorem refreshRow_id (now : Nat) (t : TaskRow) (u : TaskUpdate) :
    (refreshRow now t u).id = t.id := by
  simp only [refreshRow]
  split <;> rfl

theorem refreshRow_created_at (now : Nat) (t : TaskRow) (u : TaskUpdate) :
    (refreshRow now t u).created_at = t.created_at := by
  simp only [refreshRow]
  split <;> rfl

theorem refreshRow_updated_at_of_ne (now : Nat) (t : TaskRow) (u : TaskUpdate)
    (h : applyUpdate t u ≠ t) : (refreshRow now t u).updated_at = some now := by
  simp only [refreshRow]
  rw [if_neg h]

theorem refreshRow_updated_at_of_eq (now : Nat) (t : TaskRow) (u : TaskUpdate)
    (h : applyUpdate t u = t) : (refreshRow now t u).updated_at = t.updated_at := by
  simp only [refreshRow]
  rw [if_pos h, h]

/-- C1 (amended): for an existing task, `update_task` applies exactly the
fields explicitly present in the payload — absent fields untouched, explicit
nulls overwriting with null on the nullable columns (description, status,
assignee) — keeps id and `created_at`, refreshes the entity in the store,
and touches no other task and no other table; explicitly setting the NOT
NULL column `title` to null instead makes the commit raise `IntegrityError`,
which the route surfaces as a generic 500 with the store unchanged; the
updated-timestamp is set to the current time exactly when the applied fields
produce a net change to the row (otherwise — empty payload or all values
equal to the stored ones — it is left as it was); for a missing task id the
not-found signal is returned. -/
theorem C1_update_partial_fields (now : Nat) (s : Store) (task_id : Int) (u : TaskUpdate) :
    (get_task s task_id = none → update_task now s task_id u = Except.ok none) ∧
    (∀ t, get_task s task_id = some t →
      (((applyUpdate t u).title = none ∧ t.title ≠ none) →
        update_task now s task_id u = Except.error DbError.integrityError ∧
        runUpdate now s task_id u = (ApiResult.serverError "Internal Server Error", s)) ∧
      (¬ ((applyUpdate t u).title = none ∧ t.title ≠ none) →
        ∃ p : TaskRow × Store, update_task now s task_id u = Except.ok (some p) ∧
          p.1.title = u.title.getD t.title ∧
          p.1.description = u.description.getD t.description ∧
          p.1.status = u.status.getD t.status ∧
          p.1.assignee_id = u.assignee_id.getD t.assignee_id ∧
          p.1.id = t.id ∧
          p.1.created_at = t.created_at ∧
          (applyUpdate t u ≠ t → p.1.updated_at = some now) ∧
          (applyUpdate t u = t → p.1.updated_at = t.updated_at) ∧
          get_task p.2 task_id = some p.1 ∧
          (∀ j, j ≠ task_id → get_task p.2 j = get_task s j) ∧
          p.2.users = s.users ∧
          p.2.suggestions = s.suggestions)) := by
  constructor
  · intro h
    simp [update_task, h]
  · intro t ht
    constructor
    · intro hviol
      have herr : update_task now s task_id u = Except.error DbError.integrityError := by
        simp [update_task, ht, hviol]
      exact ⟨herr, by simp [runUpdate, herr]⟩
    · intro hok
      have hidt : t.id = task_id := by simpa using List.find?_some ht
      have hid2 : (refreshRow now t u).id = task_id := by
        rw [refreshRow_id]
        exact hidt
      have hsome : (s.tasks.find? (fun r => r.id == task_id)).isSome = true := by
        unfold get_task at ht
        rw [ht]
        rfl
      refine ⟨⟨refreshRow now t u,
        { s with tasks := s.tasks.map (fun r => if r.id == task_id then refreshRow now t u else r) }⟩,
        ?_, refreshRow_title now t u, refreshRow_description now t u, refreshRow_status now t u,
        refreshRow_assignee_id now t u, refreshRow_id now t u, refreshRow_created_at now t u,
        refreshRow_updated_at_of_ne now t u, refreshRow_updated_at_of_eq now t u, ?_, ?_, rfl, rfl⟩
      · simp [update_task, ht, hok]
      · show (s.tasks.map (fun r => if r.id == task_id then refreshRow now t u else r)).find?
            (fun r => r.id == task_id) = some (refreshRow now t u)
        exact find?_key_map_write_self (fun r => r.id) s.tasks task_id _ hid2 hsome
      · intro j hj
        show (s.tasks.map (fun r => if r.id == task_id then refreshRow now t u else r)).find?
            (fun r => r.id == j) = s.tasks.find? (fun r => r.id == j)
        exact find?_key_map_write (fun r => r.id) s.tasks task_id _ hid2 j hj

/-- C1 (witness): updating `sampleStore`'s task 1 with the payload whose only
member is `status = "done"` changes exactly status and the updated-timestamp,
leaving title, description and assignee untouched; updating it with an
explicit `title = null` raises the integrity error instead. -/
theorem C1_update_partial_fields_witness :
    ((update_task 5 sampleStore 1 statusDoneUpdate).toOption.join.map
        (fun p => (p.1.title, p.1.description, p.1.status, p.1.assignee_id, p.1.updated_at))
      = some (some "Write report", some "Quarterly report", some "done", some 1, some 5)) ∧
    update_task 5 sampleStore 1 { title := some none } = Except.error DbError.integrityError := by
  constructor
  · obtain ⟨p, hrun, ht, hd, hst, ha, _, _, hne, _, _, _, _, _⟩ :=
      ((C1_update_partial_fields 5 sampleStore 1 statusDoneUpdate).2 sampleTask rfl).2 (by decide)
    rw [hrun]
    show some (p.1.title, p.1.description, p.1.status, p.1.assignee_id, p.1.updated_at) = _
    have hupd : p.1.updated_at = some 5 := hne (by decide)
    rw [ht, hd, hst, ha, hupd]
    rfl
  · exact (((C1_update_partial_fields 5 sampleStore 1 { title := some none }).2
      sampleTask rfl).1 (by decide)).1

theorem filter_not_filter_nil {α : Type} (p : α → Bool) (l : List α) :
    (l.filter (fun r => !(p r))).filter p = [] := by
  induction l with
  | nil => rfl
  | cons a t ih =>
    by_cases h : p a = true
    · rw [List.filter_cons_of_neg (by simp [h])]
      exact ih
    · rw [List.filter_cons_of_pos (by simp [h]), List.filter_cons_of_neg (by simp [h])]
      exact ih

theorem filter_key_filter_ne {α : Type} (key : α → Int) (l : List α) (id j : Int)
    (hj : j ≠ id) :
    (l.filter (fun r => !(key r == id))).filter (fun r => key r == j)
      = l.filter (fun r => key r == j) := by
  induction l with
  | nil => rfl
  | cons a t ih =>
    by_cases h : key a = id
    · rw [List.filter_cons_of_neg (by simp [h]),
        List.filter_cons_of_neg (by simp [h]; exact fun hh => (hj hh.symm).elim)]
      exact ih
    · rw [List.filter_cons_of_pos (by simpa using h)]
      by_cases h2 : key a = j
      · rw [List.filter_cons_of_pos (by simpa using h2),
          List.filter_cons_of_pos (by simpa using h2), ih]
      · rw [List.filter_cons_of_neg (by simpa using h2),
          List.filter_cons_of_neg (by simpa using h2)]
        exact ih

/-- A stored task with only its id varying, for populating list examples. -/
def numberedTask (n : Int) : TaskRow :=
  { id := n
    title := some "t"
    description := none
    status := some "pending"
    created_at := 0
    updated_at := none
    assignee_id := none }

/-- A store holding five tasks, in creation order. -/
def fiveTaskStore : Store :=
  { users := []
    tasks := [numberedTask 1, numberedTask 2, numberedTask 3, numberedTask 4, numberedTask 5]
    suggestions := []
    nextTaskId := 6
    nextSuggId := 1 }

/-- C5: `get_tasks` returns the window of the stored task list that skips the
first `skip` rows and keeps at most `limit` of the rest, in store (insertion)
order, with no filtering: position `i < limit` of the result is position
`skip + i` of the store, and nothing beyond `limit` is returned. -/
theorem C5_list_window (s : Store) (skip : Nat) (limit : Nat) :
    (get_tasks s skip limit).length = min limit (s.tasks.length - skip) ∧
    (∀ i : Nat, i < limit → (get_tasks s skip limit).get? i = s.tasks.get? (skip + i)) ∧
    (∀ i : Nat, limit ≤ i → (get_tasks s skip limit).get? i = none) := by
  refine ⟨?_, ?_, ?_⟩
  · show ((s.tasks.drop skip).take limit).length = min limit (s.tasks.length - skip)
    rw [List.length_take, List.length_drop]
  · intro i hi
    show ((s.tasks.drop skip).take limit).get? i = s.tasks.get? (skip + i)
    rw [List.get?_take hi, List.get?_drop]
  · intro i hi
    apply List.get?_eq_none.mpr
    calc ((s.tasks.drop skip).take limit).length ≤ limit := by
          rw [List.length_take]
          exact Nat.min_le_left _ _
      _ ≤ i := hi

/-- C5 (witness): with `skip=0, limit=2` on a store of five tasks,
`get_tasks` returns exactly two tasks, the first two in creation order. -/
theorem C5_list_window_witness :
    (get_tasks fiveTaskStore 0 2).length = 2 ∧
    (get_tasks fiveTaskStore 0 2).get? 0 = some (numberedTask 1) ∧
    (get_tasks fiveTaskStore 0 2).get? 1 = some (numberedTask 2) := by
  obtain ⟨hlen, hwin, _⟩ := C5_list_window fiveTaskStore 0 2
  refine ⟨?_, ?_, ?_⟩
  · rw [hlen]
    rfl
  · rw [hwin 0 (by decide)]
    rfl
  · rw [hwin 1 (by decide)]
    rfl

/-- C6: `delete_task` returns the not-found signal `false` and changes
nothing when the task is absent; otherwise it returns `true` (a success
indication, not the deleted entity), removes the task, cascades to every
suggestion of that task (their count afterwards is zero), and leaves every
other task, every other task's suggestions and the users untouched. -/
theorem C6_delete_cascade (s : Store) (task_id : Int) :
    (get_task s task_id = none → delete_task s task_id = (false, s)) ∧
    ((get_task s task_id).isSome = true →
      (delete_task s task_id).1 = true ∧
      get_task (delete_task s task_id).2 task_id = none ∧
      (suggestionsFor (delete_task s task_id).2 task_id).length = 0 ∧
      (∀ j, j ≠ task_id → get_task (delete_task s task_id).2 j = get_task s j) ∧
      (∀ j, j ≠ task_id → suggestionsFor (delete_task s task_id).2 j = suggestionsFor s j) ∧
      (delete_task s task_id).2.users = s.users) := by
  constructor
  · intro h
    simp [delete_task, h]
  · intro h
    obtain ⟨t, ht⟩ := Option.isSome_iff_exists.mp h
    have hdel : delete_task s task_id =
        (true,
          { s with
            tasks := s.tasks.filter (fun r => !(r.id == task_id))
            suggestions := s.suggestions.filter (fun r => !(r.task_id == task_id)) }) := by
      simp [delete_task, ht]
    rw [hdel]
    refine ⟨rfl, ?_, ?_, ?_, ?_, rfl⟩
    · exact find?_key_filter_self (fun r => r.id) s.tasks task_id
    · show ((s.suggestions.filter (fun r => !(r.task_id == task_id))).filter
          (fun r => r.task_id == task_id)).length = 0
      rw [filter_not_filter_nil (fun r => r.task_id == task_id) s.suggestions]
      rfl
    · intro j hj
      exact find?_key_filter_ne (fun r => r.id) s.tasks task_id j hj
    · intro j hj
      show (s.suggestions.filter (fun r => !(r.task_id == task_id))).filter
            (fun r => r.task_id == j)
          = s.suggestions.filter (fun r => r.task_id == j)
      exact filter_key_filter_ne (fun r => r.task_id) s.suggestions task_id j hj

/-- C6 (witness): deleting task 1 of `sampleStore` (which has one suggestion
attached) succeeds, removes the task, and leaves zero suggestions for it. -/
theorem C6_delete_cascade_witness :
    (delete_task sampleStore 1).1 = true ∧
    get_task (delete_task sampleStore 1).2 1 = none ∧
    (suggestionsFor (delete_task sampleStore 1).2 1).length = 0 := by
  obtain ⟨h1, h2, h3, _, _, _⟩ := (C6_delete_cascade sampleStore 1).2 rfl
  exact ⟨h1, h2, h3⟩

/-- C7: a create request supplying no assignee and no status (so the
Pydantic payload carries the defaults `assignee_id=None`, `status="pending"`)
yields a persisted task with null assignee, status `"pending"`, the created
timestamp populated with the current tick, a null updated-timestamp, and the
generated id (the task-table sequence value) in the returned entity, which
is appended to the store. -/
theorem C7_create_defaults (now : Nat) (s : Store) (title : String)
    (descr : Option String) :
    (create_task now s { title := title, description := descr }).1.assignee_id = none ∧
    (create_task now s { title := title, description := descr }).1.status = some "pending" ∧
    (create_task now s { title := title, description := descr }).1.created_at = now ∧
    (create_task now s { title := title, description := descr }).1.id = s.nextTaskId ∧
    (create_task now s { title := title, description := descr }).1.title = some title ∧
    (create_task now s { title := title, description := descr }).1.updated_at = none ∧
    (create_task now s { title := title, description := descr }).2.tasks
      = s.tasks ++ [(create_task now s { title := title, description := descr }).1] := by
  refine ⟨rfl, ?_, rfl, rfl, rfl, rfl, rfl⟩
  show some (pyOr (some "pending") "pending") = some "pending"
  rfl

/-- A stored task whose status is `"completed"`. -/
def completedTask : TaskRow :=
  { id := 1
    title := some "t"
    description := none
    status := some "completed"
    created_at := 0
    updated_at := none
    assignee_id := none }

/-- A store holding only `completedTask`. -/
def completedStore : Store :=
  { users := []
    tasks := [completedTask]
    suggestions := []
    nextTaskId := 2
    nextSuggId := 1 }

/-- C8 (counterexample): the claim says every string supplied as status is
stored exactly. Supplying the empty string on creation stores `"pending"`
instead (`task.status or "pending"` treats `""` as falsy). -/
theorem C8_counterexample :
    (create_task 0 emptyStore
        { title := "t", description := none, status := some "", assignee_id := none }).1.status
      = some "pending" ∧
    ¬ (create_task 0 emptyStore
        { title := "t", description := none, status := some "", assignee_id := none }).1.status
      = some "" := by
  constructor
  · rfl
  · decide

/-- C8 (amended): no enumerated validation is applied to status. On update
any supplied string (including the empty string) is stored exactly, whatever
the previous status was — every status-to-status transition is permitted —
provided the same payload does not also null the NOT NULL `title` column (in
that case the commit raises `IntegrityError` and nothing is stored); on
creation any non-empty supplied string is stored exactly, while a falsy
status (`""` or `null`) is replaced by the default `"pending"`. -/
theorem C8_status_free_form (now : Nat) (s : Store) (task_id : Int) (st : String) :
    (st ≠ "" → ∀ payload : TaskCreate, payload.status = some st →
      (create_task now s payload).1.status = some st) ∧
    (∀ u : TaskUpdate, u.status = some (some st) →
      ∀ t, get_task s task_id = some t →
        ¬ ((applyUpdate t u).title = none ∧ t.title ≠ none) →
        ∃ p : TaskRow × Store, update_task now s task_id u = Except.ok (some p) ∧
          p.1.status = some st) := by
  constructor
  · intro hne payload hst
    show some (pyOr payload.status "pending") = some st
    rw [hst]
    simp [pyOr, hne]
  · intro u hst t ht hok
    refine ⟨⟨refreshRow now t u,
      { s with tasks := s.tasks.map (fun r => if r.id == task_id then refreshRow now t u else r) }⟩,
      by simp [update_task, ht, hok], ?_⟩
    rw [refreshRow_status, hst]
    rfl

/-- C8 (witness): an arbitrary non-enumerated string is stored exactly on
creation, and the `"completed"` to `"pending"` transition goes through on
update. -/
theorem C8_status_free_form_witness :
    (create_task 0 emptyStore
        { title := "t", description := none, status := some "not-a-status", assignee_id := none }).1.status
      = some "not-a-status" ∧
    (update_task 7 completedStore 1 { status := some (some "pending") }).toOption.join.map
        (fun p => p.1.status)
      = some (some "pending") := by
  constructor
  · exact (C8_status_free_form 0 emptyStore 0 "not-a-status").1 (by decide) _ rfl
  · obtain ⟨p, hrun, hs⟩ :=
      (C8_status_free_form 7 completedStore 1 "pending").2
        { status := some (some "pending") } rfl completedTask rfl (by decide)
    rw [hrun]
    show some p.1.status = some (some "pending")
    rw [hs]

/-- Decides whether a route outcome is a success payload. -/
def ApiResult.isOk {α : Type} : ApiResult α → Bool
  | ApiResult.ok _ => true
  | _ => false

/-- Decides whether a route outcome is the 500 branch. -/
def ApiResult.isServerError {α : Type} : ApiResult α → Bool
  | ApiResult.serverError _ => true
  | _ => false

/-- C2: `generate_ai_suggestion` is total and never yields `None`: a missing,
unreadable or empty credential file produces the stub fallback, an
`OpenAIError` the API-error fallback, any other exception the
unexpected-error fallback, and the three fallback strings are pairwise
distinct; consequently, for an existing task the suggestion route always
persists a new suggestion row linked to that task — carrying exactly the
connector's text, fallback or not — appends it to the suggestion table and
touches nothing else, and returns it as the success payload. -/
theorem C2_suggestion_always_stored (file : FileRead) (outcome : ProviderOutcome) :
    (∀ title descr, (generate_ai_suggestion file outcome title descr).isSome = true) ∧
    (get_openai_api_key file = none →
      ∀ title descr, generate_ai_suggestion file outcome title descr = some fallbackUnavailable) ∧
    (∀ key, get_openai_api_key file = some key → outcome = ProviderOutcome.apiError →
      ∀ title descr, generate_ai_suggestion file outcome title descr = some fallbackApiError) ∧
    (∀ key, get_openai_api_key file = some key → outcome = ProviderOutcome.unexpectedError →
      ∀ title descr, generate_ai_suggestion file outcome title descr = some fallbackUnexpected) ∧
    (fallbackUnavailable ≠ fallbackApiError ∧ fallbackUnavailable ≠ fallbackUnexpected ∧
      fallbackApiError ≠ fallbackUnexpected) ∧
    (∀ (now : Nat) (s : Store) (task_id : Int) (t : TaskRow), get_task s task_id = some t →
      ∃ q : AISuggestionRow × Store,
        create_task_suggestion now s task_id file outcome = (ApiResult.ok q.1, q.2) ∧
        q.1.task_id = task_id ∧
        q.1.id = s.nextSuggId ∧
        q.1.created_at = now ∧
        some q.1.suggestion_text
          = generate_ai_suggestion file outcome (t.title.getD "") t.description ∧
        q.2.suggestions = s.suggestions ++ [q.1] ∧
        q.2.tasks = s.tasks ∧
        q.2.users = s.users) := by
  refine ⟨?_, ?_, ?_, ?_, ⟨by decide, by decide, by decide⟩, ?_⟩
  · intro title descr
    cases hk : get_openai_api_key file
    · simp [generate_ai_suggestion, hk]
    · cases outcome <;> simp [generate_ai_suggestion, hk]
  · intro hk title descr
    simp [generate_ai_suggestion, hk]
  · intro key hk ho title descr
    subst ho
    simp [generate_ai_suggestion, hk]
  · intro key hk ho title descr
    subst ho
    simp [generate_ai_suggestion, hk]
  · intro now s task_id t ht
    obtain ⟨text, hgen⟩ :
        ∃ text, generate_ai_suggestion file outcome (t.title.getD "") t.description = some text := by
      cases hk : get_openai_api_key file with
      | none => exact ⟨fallbackUnavailable, by simp [generate_ai_suggestion, hk]⟩
      | some key =>
        cases outcome with
        | success content => exact ⟨pyStrip content, by simp [generate_ai_suggestion, hk]⟩
        | apiError => exact ⟨fallbackApiError, by simp [generate_ai_suggestion, hk]⟩
        | unexpectedError => exact ⟨fallbackUnexpected, by simp [generate_ai_suggestion, hk]⟩
    refine ⟨⟨{ id := s.nextSuggId, suggestion_text := text, created_at := now, task_id := task_id },
      { s with
        suggestions := s.suggestions ++
          [{ id := s.nextSuggId, suggestion_text := text, created_at := now, task_id := task_id }]
        nextSuggId := s.nextSuggId + 1 }⟩,
      ?_, rfl, rfl, rfl, ?_, rfl, rfl, rfl⟩
    · simp [create_task_suggestion, ht, hgen, create_ai_suggestion]
    · rw [hgen]

/-- C2 (witness): requesting a suggestion for `sampleStore`'s task 1 while
the credential file is absent succeeds and stores the stub fallback text
alongside the pre-existing suggestion. -/
theorem C2_suggestion_always_stored_witness :
    (create_task_suggestion 9 sampleStore 1 FileRead.absent ProviderOutcome.apiError).1.isOk = true ∧
    ((create_task_suggestion 9 sampleStore 1 FileRead.absent ProviderOutcome.apiError).2.suggestions.map
        (fun r => r.suggestion_text))
      = ["Add a deadline.", fallbackUnavailable] := by
  obtain ⟨q, hq, _, _, _, htext, hsugg, _, _⟩ :=
    (C2_suggestion_always_stored FileRead.absent ProviderOutcome.apiError).2.2.2.2.2
      9 sampleStore 1 sampleTask rfl
  have htext' : q.1.suggestion_text = fallbackUnavailable := by
    have hgen : generate_ai_suggestion FileRead.absent ProviderOutcome.apiError
        (sampleTask.title.getD "") sampleTask.description = some fallbackUnavailable := rfl
    rw [hgen] at htext
    exact Option.some.inj htext
  constructor
  · rw [hq]
    rfl
  · rw [hq]
    show (q.2.suggestions.map fun r => r.suggestion_text) = _
    rw [hsugg]
    simp [sampleStore, sampleSuggestion, htext']

/-- C9: `generate_ai_suggestion` returns a string on every path, so the 500
branch of the suggestion route (`if suggestion_text is None`) can never be
taken: for any store, task id and connector environment the route's outcome
is never a server error. -/
theorem C9_generation_error_branch_unreachable (now : Nat) (s : Store) (task_id : Int)
    (file : FileRead) (outcome : ProviderOutcome) (title : String) (descr : Option String) :
    (generate_ai_suggestion file outcome title descr).isSome = true ∧
    (create_task_suggestion now s task_id file outcome).1.isServerError = false := by
  have hgen : ∀ (ti : String) (de : Option String),
      (generate_ai_suggestion file outcome ti de).isSome = true := by
    intro ti de
    cases hk : get_openai_api_key file
    · simp [generate_ai_suggestion, hk]
    · cases outcome <;> simp [generate_ai_suggestion, hk]
  refine ⟨hgen title descr, ?_⟩
  cases ht : get_task s task_id with
  | none => simp [create_task_suggestion, ht, ApiResult.isServerError]
  | some db_task =>
    cases hg : generate_ai_suggestion file outcome (db_task.title.getD "") db_task.description with
    | none =>
      have hs := hgen (db_task.title.getD "") db_task.description
      rw [hg] at hs
      exact absurd hs (by decide)
    | some text => simp [create_task_suggestion, ht, hg, ApiResult.isServerError]

/-- C3: the access gate passes exactly the requests whose `Authorization`
header splits on whitespace into a scheme word lowercasing to `bearer`
followed by precisely the configured static token; a missing header is its
own rejection, and the three rejection reasons are distinct values that all
surface as the same generic 401 status; the gate (the `verify_token` router
dependency) is in force on every one of the six task routes. -/
theorem C3_access_gate (secret : String) (auth : Option String) :
    (verify_token secret auth = AuthResult.pass ↔
      ∃ a scheme, auth = some a ∧ pySplit a = [scheme, secret] ∧ pyLower scheme = "bearer") ∧
    (auth = none → verify_token secret auth = AuthResult.missingHeader) ∧
    (∀ r : AuthResult, r ≠ AuthResult.pass → authStatus r = some 401) ∧
    (AuthResult.missingHeader ≠ AuthResult.invalidScheme ∧
      AuthResult.missingHeader ≠ AuthResult.invalidToken ∧
      AuthResult.invalidScheme ≠ AuthResult.invalidToken) ∧
    (∀ route ∈ taskRoutes, "verify_token" ∈ route.dependencies) := by
  refine ⟨⟨?_, ?_⟩, ?_, ?_, by decide, by decide⟩
  · intro h
    cases auth with
    | none => simp [verify_token] at h
    | some a =>
      simp only [verify_token] at h
      split at h
      · rename_i scheme token heq
        split at h
        · rename_i hlow
          split at h
          · rename_i htok
            exact ⟨a, scheme, rfl, by rw [heq, htok], hlow⟩
          · simp at h
        · simp at h
      · simp at h
  · rintro ⟨a, scheme, rfl, hsp, hlow⟩
    simp only [verify_token]
    rw [hsp]
    simp [hlow]
  · intro h
    subst h
    rfl
  · intro r hr
    cases r with
    | pass => exact absurd rfl hr
    | missingHeader => rfl
    | invalidScheme => rfl
    | invalidToken => rfl

/-- C3 (witness): with the configured secret `default_token`, the header
`Bearer default_token` passes the gate, `Bearer wrong` does not, a missing
header is the missing-header rejection, and a rejection surfaces as 401. -/
theorem C3_access_gate_witness :
    verify_token "default_token" (some "Bearer default_token") = AuthResult.pass ∧
    ¬ verify_token "default_token" (some "Bearer wrong") = AuthResult.pass ∧
    verify_token "default_token" none = AuthResult.missingHeader ∧
    authStatus AuthResult.invalidToken = some 401 := by
  refine ⟨?_, ?_, ?_, ?_⟩
  · exact (C3_access_gate "default_token" (some "Bearer default_token")).1.mpr
      ⟨"Bearer default_token", "Bearer", rfl, by decide, by decide⟩
  · intro h
    obtain ⟨a, scheme, ha, hsp, _⟩ :=
      (C3_access_gate "default_token" (some "Bearer wrong")).1.mp h
    have ha' : a = "Bearer wrong" := (Option.some.inj ha).symm
    subst ha'
    rw [show pySplit "Bearer wrong" = ["Bearer", "wrong"] from rfl] at hsp
    simp at hsp
  · exact (C3_access_gate "default_token" none).2.1 rfl
  · exact (C3_access_gate "default_token" none).2.2.1 AuthResult.invalidToken (by decide)

/-- Create payload supplying the non-null assignee id `0`. -/
def zeroAssigneePayload : TaskCreate := { title := "x", assignee_id := some 0 }

/-- C4: the claim requires every create or update that supplies a non-null
assignee id to verify the referenced user first and fail with
referenced-user-not-found when absent. The create route guards the check
with Python truthiness (`if task.assignee_id:`), so the non-null id `0` —
which resolves to no user, the user table here being empty — bypasses the
verification entirely: the route persists and returns a task whose
`assignee_id` is `0` instead of failing with not-found. The update route,
which uses `is not None`, rejects the same id. -/
theorem C4_assignee_check_bypassed_on_create :
    emptyStore.users = [] ∧
    (create_new_task 3 emptyStore zeroAssigneePayload).1
      = ApiResult.ok
          { id := 1, title := some "x", description := none, status := some "pending",
            created_at := 3, updated_at := none, assignee_id := some 0 } ∧
    (get_task (create_new_task 3 emptyStore zeroAssigneePayload).2 1).map
        (fun t => t.assignee_id)
      = some (some 0) ∧
    (update_existing_task 3 emptyStore 1 { assignee_id := some (some 0) }).1
      = ApiResult.notFound "Assignee user not found" := by
  exact ⟨rfl, rfl, rfl, rfl⟩

/-! Store-mutating operations reachable through the task router, for stating
trace properties. -/

/-- One store-mutating request: POST /tasks/, PUT /tasks/task_id,
DELETE /tasks/task_id, or POST /tasks/task_id/suggestions. -/
inductive Op where
  | createOp (now : Nat) (task : TaskCreate)
  | updateOp (now : Nat) (task_id : Int) (task_update : TaskUpdate)
  | deleteOp (task_id : Int)
  | suggestOp (now : Nat) (task_id : Int) (file : FileRead) (outcome : ProviderOutcome)
deriving DecidableEq

/-- Store left behind by one request. -/
def applyOp (s : Store) : Op → Store
  | Op.createOp now task => (create_new_task now s task).2
  | Op.updateOp now task_id u => (update_existing_task now s task_id u).2
  | Op.deleteOp task_id => (delete_existing_task s task_id).2
  | Op.suggestOp now task_id file outcome => (create_task_suggestion now s task_id file outcome).2

/-- Public Task payload (`app/schemas.py`, class `Task`): `updated_at` is
declared `Optional[datetime] = None`, i.e. nullable. Rows reaching
serialization always carry a title, read here with a default. -/
structure TaskOut where
  id : Int
  title : String
  description : Option String
  status : Option String
  created_at : Nat
  updated_at : Option Nat
  assignee_id : Option Int
deriving DecidableEq, Repr

/-- Serialization of a stored row through the response model
(`from_attributes=True`). -/
def taskToSchema (t : TaskRow) : TaskOut :=
  { id := t.id
    title := t.title.getD ""
    description := t.description
    status := t.status
    created_at := t.created_at
    updated_at := t.updated_at
    assignee_id := t.assignee_id }

theorem get_task_after_create_new (now : Nat) (s : Store) (task : TaskCreate)
    (task_id : Int) (t : TaskRow) (h : get_task s task_id = some t) :
    get_task (create_new_task now s task).2 task_id = some t := by
  unfold create_new_task
  by_cases hb : pyTruthy task.assignee_id = true
  · rw [if_pos hb]
    cases hu : get_user s (task.assignee_id.getD 0) with
    | none => exact h
    | some u =>
      show (s.tasks ++ [_]).find? (fun r => r.id == task_id) = some t
      exact find?_append_of_some _ h
  · rw [if_neg hb]
    show (s.tasks ++ [_]).find? (fun r => r.id == task_id) = some t
    exact find?_append_of_some _ h

theorem get_task_after_update_existing (now : Nat) (s : Store) (j : Int)
    (u : TaskUpdate) (task_id : Int) (hj : task_id ≠ j) :
    get_task (update_existing_task now s j u).2 task_id = get_task s task_id := by
  have hrun : get_task (runUpdate now s j u).2 task_id = get_task s task_id := by
    unfold runUpdate
    cases hup : update_task now s j u with
    | error e => rfl
    | ok o =>
      cases o with
      | none => rfl
      | some p =>
        cases hg : get_task s j with
        | none =>
          simp only [update_task, hg] at hup
          simp at hup
        | some db =>
          have hid : db.id = j := by simpa using List.find?_some hg
          simp only [update_task, hg] at hup
          split at hup
          · simp at hup
          · injection hup with hup
            injection hup with hup
            subst hup
            show (s.tasks.map (fun r => if r.id == j then refreshRow now db u else r)).find?
                (fun r => r.id == task_id) = s.tasks.find? (fun r => r.id == task_id)
            refine find?_key_map_write (fun r => r.id) s.tasks j (refreshRow now db u)
              ?_ task_id hj
            show (refreshRow now db u).id = j
            rw [refreshRow_id]
            exact hid
  cases hu : u.assignee_id with
  | none => simpa [update_existing_task, hu] using hrun
  | some v =>
    cases v with
    | none => simpa [update_existing_task, hu] using hrun
    | some uid =>
      cases hg2 : get_user s uid with
      | none => simp [update_existing_task, hu, hg2]
      | some w => simpa [update_existing_task, hu, hg2] using hrun

theorem delete_existing_store (s : Store) (j : Int) :
    (delete_existing_task s j).2 = (delete_task s j).2 := by
  unfold delete_existing_task
  by_cases h : (delete_task s j).1 = true <;> simp [h]

theorem get_task_after_delete_self (s : Store) (task_id : Int) :
    get_task (delete_task s task_id).2 task_id = none := by
  unfold delete_task
  cases hg : get_task s task_id with
  | none => exact hg
  | some t => exact find?_key_filter_self (fun r => r.id) s.tasks task_id

theorem get_task_after_delete_ne (s : Store) (j : Int) (task_id : Int)
    (hj : task_id ≠ j) :
    get_task (delete_task s j).2 task_id = get_task s task_id := by
  unfold delete_task
  cases hg : get_task s j with
  | none => rfl
  | some t => exact find?_key_filter_ne (fun r => r.id) s.tasks j task_id hj

theorem suggestion_store_tasks (now : Nat) (s : Store) (task_id : Int)
    (file : FileRead) (outcome : ProviderOutcome) :
    (create_task_suggestion now s task_id file outcome).2.tasks = s.tasks := by
  cases ht : get_task s task_id with
  | none => simp [create_task_suggestion, ht]
  | some db_task =>
    cases hg : generate_ai_suggestion file outcome (db_task.title.getD "") db_task.description with
    | none => simp [create_task_suggestion, ht, hg]
    | some text => simp [create_task_suggestion, ht, hg, create_ai_suggestion]

theorem get_task_after_suggest (now : Nat) (s : Store) (j : Int)
    (file : FileRead) (outcome : ProviderOutcome) (task_id : Int) :
    get_task (create_task_suggestion now s j file outcome).2 task_id = get_task s task_id := by
  unfold get_task
  rw [suggestion_store_tasks]

/-- C10: a freshly created task has a null updated-timestamp; no
API-reachable operation other than an update of that very task ever
populates it (so it remains null until the task's first successful update);
and the public Task payload carries `updated_at` through as a nullable
field. -/
theorem C10_updated_at_null_until_update :
    (∀ (now : Nat) (s : Store) (task : TaskCreate),
      (create_task now s task).1.updated_at = none) ∧
    (∀ (s : Store) (op : Op) (task_id : Int) (t t' : TaskRow),
      get_task s task_id = some t → t.updated_at = none →
      (∀ now u, op ≠ Op.updateOp now task_id u) →
      get_task (applyOp s op) task_id = some t' → t'.updated_at = none) ∧
    (∀ t : TaskRow, (taskToSchema t).updated_at = t.updated_at) := by
  refine ⟨fun _ _ _ => rfl, ?_, fun _ => rfl⟩
  intro s op task_id t t' ht hnone hop ht'
  cases op with
  | createOp now2 task =>
    simp only [applyOp] at ht'
    rw [get_task_after_create_new now2 s task task_id t ht] at ht'
    injection ht' with h
    rw [← h]
    exact hnone
  | updateOp now2 j u =>
    have hj : task_id ≠ j := fun e => hop now2 u (by rw [e])
    simp only [applyOp] at ht'
    rw [get_task_after_update_existing now2 s j u task_id hj, ht] at ht'
    injection ht' with h
    rw [← h]
    exact hnone
  | deleteOp j =>
    simp only [applyOp] at ht'
    rw [delete_existing_store] at ht'
    by_cases hj : task_id = j
    · subst hj
      rw [get_task_after_delete_self] at ht'
      cases ht'
    · rw [get_task_after_delete_ne s j task_id hj, ht] at ht'
      injection ht' with h
      rw [← h]
      exact hnone
  | suggestOp now2 j file outcome =>
    simp only [applyOp] at ht'
    rw [get_task_after_suggest, ht] at ht'
    injection ht' with h
    rw [← h]
    exact hnone

/-- C10 (witness): a concrete freshly created task has `updated_at = none`,
and attaching a suggestion to `sampleStore`'s task 1 leaves its
`updated_at` null. -/
theorem C10_updated_at_null_until_update_witness :
    (create_task 3 emptyStore { title := "t" }).1.updated_at = none ∧
    (get_task (applyOp sampleStore (Op.suggestOp 9 1 FileRead.absent ProviderOutcome.apiError)) 1).map
        (fun r => r.updated_at) = some none := by
  obtain ⟨h1, h2, _⟩ := C10_updated_at_null_until_update
  refine ⟨h1 3 emptyStore { title := "t" }, ?_⟩
  have hg : get_task (applyOp sampleStore (Op.suggestOp 9 1 FileRead.absent ProviderOutcome.apiError)) 1
      = some sampleTask := rfl
  have hres := h2 sampleStore (Op.suggestOp 9 1 FileRead.absent ProviderOutcome.apiError)
    1 sampleTask sampleTask rfl rfl (fun now u h => by cases h) hg
  rw [hg, Option.map_some', hres]

end App

